import Mathlib

/-!
Verification development for the PhilVerify misinformation-scoring pipeline.
Shallow embedding of the scoring/fusion engine (src/scoring/engine.py), the
evidence stance detector and aggregator (src/evidence/stance_detector.py),
and the similarity fallbacks (src/evidence/similarity.py and
src/evidence/news_fetcher.py).  Python floats are modelled as exact
rationals; Python `round` is modelled as round-half-to-even.
-/

namespace PhilVerify

/-! ## Python rounding -/

/-- Python `round(x)` to the nearest integer, ties to even (banker's
rounding), modelled on exact rationals. -/
def pyRoundInt (x : ℚ) : ℤ :=
  if Int.fract x = 1/2 then (if Even ⌊x⌋ then ⌊x⌋ else ⌊x⌋ + 1) else round x

/-- Python `round(x, n)` for `n` decimal digits. -/
def pyRound (n : ℕ) (x : ℚ) : ℚ :=
  (pyRoundInt (x * 10 ^ n) : ℚ) / 10 ^ n

/-! ## Enumerations (src/api/schemas.py) -/

/-- `Verdict` enum. -/
inductive Verdict where
  | CREDIBLE
  | UNVERIFIED
  | LIKELY_FAKE
deriving DecidableEq, Repr

/-- `Stance` enum. -/
inductive Stance where
  | SUPPORTS
  | REFUTES
  | NOT_ENOUGH_INFO
deriving DecidableEq, Repr

/-- `DomainTier` enum (Credible=1, SatireOpinion=2, Suspicious=3, KnownFake=4). -/
inductive DomainTier where
  | CREDIBLE
  | SATIRE_OPINION
  | SUSPICIOUS
  | KNOWN_FAKE
deriving DecidableEq, Repr

/-! ## Stance detector (src/evidence/stance_detector.py) -/

/-- `StanceResult` dataclass. -/
structure StanceResult where
  stance : Stance
  confidence : ℚ
  matched_keywords : List String
  reason : String
deriving DecidableEq, Repr

/-- Character-level model of Python `str.lower()` (ASCII case mapping, the
range exercised by the keyword and domain constants). -/
def pyLower (s : String) : String := ⟨s.data.map Char.toLower⟩

/-- Python substring test `needle in hay`. -/
def pyContains (hay needle : String) : Bool :=
  decide (needle.data <:+: hay.data)

/-- `_REFUTATION_KEYWORDS` regex pattern list (kept as raw pattern text;
matching itself is delegated to the abstracted scanner). -/
def _REFUTATION_KEYWORDS : List String :=
  [r"\bfact.?check\b", r"\bfalse\b", r"\bfake\b", r"\bhoax\b",
   r"\bdebunked\b", r"\bmisinformation\b", r"\bdisinformation\b",
   r"\bnot true\b", r"\bno evidence\b", r"\bunverified\b",
   r"\bcorrection\b", r"\bretract\b", r"\bwrong\b", r"\bdenied\b",
   r"\bscam\b", r"\bsatire\b",
   r"\bkasinungalingan\b", r"\bhindi totoo\b", r"\bpeke\b"]

/-- `_SUPPORT_KEYWORDS` regex pattern list. -/
def _SUPPORT_KEYWORDS : List String :=
  [r"\bconfirmed\b", r"\bverified\b", r"\bofficial\b", r"\bproven\b",
   r"\btrue\b", r"\blegitimate\b", r"\baccurate\b", r"\bauthorized\b",
   r"\breal\b", r"\bgenuine\b",
   r"\btotoo\b", r"\bkumpirmado\b", r"\bopisyal\b"]

/-- `_FACTCHECK_DOMAINS`: articles from these PH fact-check domains always
refute, regardless of content.  (A Python `set` literal; iteration order of
the set is unspecified, so only order-independent consequences are proved.) -/
def _FACTCHECK_DOMAINS : List String :=
  ["vera-files.org", "verafiles.org", "factcheck.afp.com",
   "rappler.com/newsbreak/fact-check", "cnn.ph/fact-check"]

/-- `_SIMILARITY_NEI_THRESHOLD`. -/
def _SIMILARITY_NEI_THRESHOLD : ℚ := 0.15

/-- `_SIMILARITY_SUPPORT_THRESHOLD`. -/
def _SIMILARITY_SUPPORT_THRESHOLD : ℚ := 0.35

/-- `detect_stance`: ordered-rule stance detection.  The regex engine behind
`_scan_keywords` is an external collaborator; it is abstracted as the `scan`
parameter with the same interface (text and pattern list in, matched
fragments out).  Rule order, thresholds, confidences and result records
follow the source.  The human-readable `reason` strings elide the Python
f-string interpolation of similarity values and matched keywords. -/
def detect_stance (scan : String → List String → List String)
    (claim article_title article_description : String)
    (article_url : String) (similarity : ℚ) : StanceResult :=
  let _ := claim
  let article_text := pyLower (article_title ++ " " ++ article_description)
  match (if article_url ≠ "" then
          _FACTCHECK_DOMAINS.find? (fun d => pyContains (pyLower article_url) d)
        else none) with
  | some fc_domain =>
      { stance := Stance.REFUTES, confidence := 0.90,
        matched_keywords := [fc_domain],
        reason := "Known Philippine fact-check domain" }
  | none =>
    if similarity < _SIMILARITY_NEI_THRESHOLD then
      { stance := Stance.NOT_ENOUGH_INFO, confidence := 0.80,
        matched_keywords := [],
        reason := "Low similarity - article not related to claim" }
    else
      let refutation_hits := scan article_text _REFUTATION_KEYWORDS
      if refutation_hits ≠ [] then
        { stance := Stance.REFUTES,
          confidence :=
            pyRound 2 (min 0.95 (0.65 + (refutation_hits.length : ℚ) * 0.10)),
          matched_keywords := refutation_hits,
          reason := "Refutation signal detected" }
      else
        let support_hits := scan article_text _SUPPORT_KEYWORDS
        if support_hits ≠ [] ∧ similarity ≥ _SIMILARITY_SUPPORT_THRESHOLD then
          { stance := Stance.SUPPORTS,
            confidence :=
              pyRound 2 (min 0.90
                (0.50 + (support_hits.length : ℚ) * 0.10 + similarity * 0.20)),
            matched_keywords := support_hits,
            reason := "Support signal + similarity" }
        else
          { stance := Stance.NOT_ENOUGH_INFO, confidence := 0.70,
            matched_keywords := [],
            reason := "No conclusive support or refutation signals found" }

/-- `compute_evidence_score`: aggregate multiple article stances into a
single evidence score (0-100) and an overall Layer-2 verdict label.
Per-index similarity lookup defaults to `0.5` past the end of
`similarities`, as in the source (`similarities[i] if i < len(similarities)
else 0.5`). -/
def compute_evidence_score (stances : List StanceResult)
    (similarities : List ℚ) : ℚ × String :=
  if stances = [] then (50, "Unverified")
  else
    let supporting := stances.filter (fun s => s.stance = Stance.SUPPORTS)
    let refuting := stances.filter (fun s => s.stance = Stance.REFUTES)
    let score :=
      50 + (stances.enum.map (fun p =>
        let sim := similarities.getD p.1 0.5
        match p.2.stance with
        | Stance.SUPPORTS => 10 * (0.5 + sim)
        | Stance.REFUTES => -(15 * p.2.confidence)
        | Stance.NOT_ENOUGH_INFO => 0)).sum
    let score := pyRound 1 (max 0 (min 100 score))
    let verdict :=
      if refuting.length > supporting.length then "Likely Fake"
      else if supporting.length ≥ 2 ∧ score ≥ 60 then "Credible"
      else "Unverified"
    (score, verdict)

/-! ## Scoring engine (src/scoring/engine.py) and settings (src/config.py) -/

namespace Settings

/-- `Settings.ml_weight` default. -/
def ml_weight : ℚ := 0.40

/-- `Settings.evidence_weight` default. -/
def evidence_weight : ℚ := 0.60

/-- `Settings.credible_threshold` default. -/
def credible_threshold : ℚ := 70

/-- `Settings.fake_threshold` default. -/
def fake_threshold : ℚ := 40

end Settings

/-- `_map_verdict`, parameterized by the two configured thresholds consumed
from `settings`. -/
def _map_verdict (credible_threshold fake_threshold final_score : ℚ) : Verdict :=
  if final_score ≥ credible_threshold then Verdict.CREDIBLE
  else if final_score ≥ fake_threshold then Verdict.UNVERIFIED
  else Verdict.LIKELY_FAKE

/-- `_EVIDENCE_DEFAULTS.get(tier, 50.0) if tier else 50.0` (engine.py
lines 148-155): the default evidence score before retrieval is attempted. -/
def evidenceDefault (src_tier : Option DomainTier) : ℚ :=
  match src_tier with
  | some DomainTier.CREDIBLE => 65
  | some DomainTier.SATIRE_OPINION => 45
  | some DomainTier.SUSPICIOUS => 50
  | some DomainTier.KNOWN_FAKE => 25
  | none => 50

/-- The fields of an orchestrator `EvidenceSource` record that the inline
Layer-2 aggregation reads: stance and similarity. -/
structure EvidenceSourceRec where
  stance : Stance
  similarity : ℚ
deriving DecidableEq, Repr

/-- Inline per-article stance heuristic of the orchestrator (engine.py
lines 173-179): refutation keyword in the lowered title → Refutes, else
similarity above 0.6 → Supports, else Not-Enough-Info. -/
def inlineStance (title : String) (sim : ℚ) : Stance :=
  if ["false", "fake", "hoax", "wrong", "debunked", "fact check"].any
      (fun w => pyContains (pyLower title) w) then Stance.REFUTES
  else if sim > 0.6 then Stance.SUPPORTS
  else Stance.NOT_ENOUGH_INFO

/-- Inline Layer-2 aggregation of the orchestrator (engine.py lines
191-202): when articles were appended, evidence score = average similarity
× 100 minus 15 per refuting source, clamped to [0,100], and the verdict
from stance counts; otherwise the incoming default score and the initial
`Unverified` verdict survive unchanged. -/
def inlineLayer2 (evidence_sources : List EvidenceSourceRec)
    (default_score : ℚ) : ℚ × Verdict :=
  if evidence_sources = [] then (default_score, Verdict.UNVERIFIED)
  else
    let supporting := evidence_sources.filter (fun s => s.stance = Stance.SUPPORTS)
    let refuting := evidence_sources.filter (fun s => s.stance = Stance.REFUTES)
    let avg_sim := (evidence_sources.map (fun s => s.similarity)).sum
      / (evidence_sources.length : ℚ)
    let refute_penalty := (refuting.length : ℚ) * 15
    let evidence_score := max 0 (min 100 (avg_sim * 100 - refute_penalty))
    let l2_verdict :=
      if refuting.length > supporting.length then Verdict.LIKELY_FAKE
      else if supporting.length ≥ 2 then Verdict.CREDIBLE
      else Verdict.UNVERIFIED
    (evidence_score, l2_verdict)

/-- The reported `layer2.evidence_score` (engine.py line 208):
`round(evidence_score, 1)`. -/
def layer2ReportedScore (evidence_score : ℚ) : ℚ := pyRound 1 evidence_score

/-- Layer-2 evidence step of `run_verification` (engine.py lines 148-204)
with the external effects made explicit: `api_key_set` models
`settings.news_api_key` being nonempty, and `fetched` models retrieval —
`none` is an exception raised anywhere inside the `try` block (the `except`
branch only logs a warning, so the default score survives and nothing
propagates to the caller), `some srcs` the successfully processed
`evidence_sources` list.  Returns the `evidence_score` and `l2_verdict` the
orchestrator continues with; the function is total, so the request always
completes. -/
def layer2Step (src_tier : Option DomainTier) (api_key_set : Bool)
    (fetched : Option (List EvidenceSourceRec)) : ℚ × Verdict :=
  let d := evidenceDefault src_tier
  if api_key_set then
    match fetched with
    | none => (d, Verdict.UNVERIFIED)
    | some srcs => inlineLayer2 srcs d
  else (d, Verdict.UNVERIFIED)

/-- Step-9 `ml_credibility` (engine.py line 216): the classifier verdict
string is compared against the literal `"Credible"`. -/
def mlCredibility (l1_verdict : String) (l1_confidence : ℚ) : ℚ :=
  if l1_verdict = "Credible" then l1_confidence else 100 - l1_confidence

/-- `_BASE_ADJ` domain-adjustment table (engine.py lines 229-234). -/
def _BASE_ADJ : DomainTier → ℚ
  | DomainTier.CREDIBLE => 20
  | DomainTier.SATIRE_OPINION => -5
  | DomainTier.SUSPICIOUS => -10
  | DomainTier.KNOWN_FAKE => -35

/-- `_TIER_IMPLIED_SCORE` table (engine.py lines 239-244). -/
def _TIER_IMPLIED_SCORE : DomainTier → ℚ
  | DomainTier.CREDIBLE => 75
  | DomainTier.SATIRE_OPINION => 50
  | DomainTier.SUSPICIOUS => 50
  | DomainTier.KNOWN_FAKE => 25

/-- `disagreement` (engine.py line 246). -/
def disagreement (ml_credibility implied : ℚ) : ℚ :=
  |ml_credibility - implied| / 50

/-- Disagreement `multiplier` (engine.py line 247). -/
def multiplier (ml_credibility : ℚ) (tier : DomainTier) : ℚ :=
  min 1.5 (1 + disagreement ml_credibility (_TIER_IMPLIED_SCORE tier) * 0.5)

/-- `domain_adjustment` (engine.py lines 227-249): zero when the source
domain is unknown, otherwise the tier base adjustment scaled by the
disagreement multiplier. -/
def domainAdjustment (tier : Option DomainTier) (ml_credibility : ℚ) : ℚ :=
  match tier with
  | none => 0
  | some t => _BASE_ADJ t * multiplier ml_credibility t

/-- `base_score` (engine.py line 217). -/
def baseScore (mlw evw ml_credibility evidence_score : ℚ) : ℚ :=
  ml_credibility * mlw + evidence_score * evw

/-- `final_score` (engine.py line 257):
`round(min(100.0, max(0.0, base_score + domain_adjustment)), 1)`. -/
def finalScore (mlw evw ml_credibility evidence_score : ℚ)
    (tier : Option DomainTier) : ℚ :=
  pyRound 1 (min 100 (max 0
    (baseScore mlw evw ml_credibility evidence_score
      + domainAdjustment tier ml_credibility)))

/-- Top-level `confidence` field of the assembled `VerificationResponse`
(engine.py line 263): `round(max(l1.confidence, evidence_score / 100 * 100), 1)`. -/
def topConfidence (l1_confidence evidence_score : ℚ) : ℚ :=
  pyRound 1 (max l1_confidence (evidence_score / 100 * 100))

/-! ## Similarity fallbacks (src/evidence/similarity.py and
src/evidence/news_fetcher.py) -/

/-- Structural model of Python `str.split()` with no separator: split on
whitespace runs, producing no empty fragments.  `acc` carries the current
word reversed. -/
def pySplitAux : List Char → List Char → List String
  | [], [] => []
  | [], acc => [⟨acc.reverse⟩]
  | c :: cs, acc =>
    if c.isWhitespace then
      (if acc = [] then pySplitAux cs [] else ⟨acc.reverse⟩ :: pySplitAux cs [])
    else pySplitAux cs (c :: acc)

/-- Python `str.split()` with no arguments. -/
def pySplit (s : String) : List String := pySplitAux s.data []

/-- Python `set(s.lower().split())`. -/
def tokenSet (s : String) : Finset String :=
  (pySplit (pyLower s)).toFinset

/-- The shared unrounded Jaccard ratio `len(A ∩ B) / len(A ∪ B)` over the
two token sets. -/
def jaccardRatio (a b : String) : ℚ :=
  ((tokenSet a ∩ tokenSet b).card : ℚ) / ((tokenSet a ∪ tokenSet b).card : ℚ)

/-- `_jaccard_similarity` (similarity.py lines 55-63): Jaccard on lowercase
whitespace tokens, rounded to 4 decimal places. -/
def _jaccard_similarity (a b : String) : ℚ :=
  let tokens_a := tokenSet a
  let tokens_b := tokenSet b
  if tokens_a = ∅ ∨ tokens_b = ∅ then 0
  else pyRound 4 (((tokens_a ∩ tokens_b).card : ℚ) / ((tokens_a ∪ tokens_b).card : ℚ))

/-- `compute_similarity` (similarity.py lines 26-52) on its deterministic
Jaccard fallback path (the sentence-embedding model is an external
collaborator modelled as unavailable): empty-argument guard, then
`_jaccard_similarity`. -/
def compute_similarity_fallback (claim article_text : String) : ℚ :=
  if claim = "" ∨ article_text = "" then 0
  else _jaccard_similarity claim article_text

/-- `compute_similarity` (news_fetcher.py lines 305-323) on the same
Jaccard fallback path: same token sets, but rounded to 3 decimal places. -/
def nf_compute_similarity_fallback (claim article_text : String) : ℚ :=
  let a := tokenSet claim
  let b := tokenSet article_text
  if a = ∅ ∨ b = ∅ then 0
  else pyRound 3 (((a ∩ b).card : ℚ) / ((a ∪ b).card : ℚ))

/-! ## Properties of the rounding embedding -/

theorem pyRoundInt_intCast (k : ℤ) : pyRoundInt (k : ℚ) = k := by
  unfold pyRoundInt
  rw [Int.fract_intCast]
  norm_num

theorem pyRoundInt_le_floor_add (x : ℚ) : pyRoundInt x ≤ ⌊x + 1/2⌋ := by
  unfold pyRoundInt
  split
  · next h =>
    have hx : x = (⌊x⌋ : ℚ) + 1/2 := by
      have h2 := Int.floor_add_fract x
      rw [h] at h2
      linarith
    have hfl : ⌊x + 1/2⌋ = ⌊x⌋ + 1 := by
      have h3 : x + 1/2 = ((⌊x⌋ + 1 : ℤ) : ℚ) := by push_cast; linarith
      rw [h3, Int.floor_intCast]
    rw [hfl]
    split <;> omega
  · rw [round_eq]

theorem ceil_sub_le_pyRoundInt (x : ℚ) : ⌈x - 1/2⌉ ≤ pyRoundInt x := by
  unfold pyRoundInt
  split
  · next h =>
    have hx : x = (⌊x⌋ : ℚ) + 1/2 := by
      have h2 := Int.floor_add_fract x
      rw [h] at h2
      linarith
    have hceil : ⌈x - 1/2⌉ = ⌊x⌋ := by
      have h3 : x - 1/2 = ((⌊x⌋ : ℤ) : ℚ) := by linarith
      rw [h3, Int.ceil_intCast]
    rw [hceil]
    split <;> omega
  · rw [round_eq]
    refine Int.ceil_le.mpr (le_of_lt ?_)
    have := Int.sub_one_lt_floor (x + 1/2)
    linarith

theorem pyRoundInt_mono {x y : ℚ} (h : x ≤ y) : pyRoundInt x ≤ pyRoundInt y := by
  rcases eq_or_lt_of_le h with heq | hlt
  · rw [heq]
  · calc pyRoundInt x ≤ ⌊x + 1/2⌋ := pyRoundInt_le_floor_add x
      _ ≤ ⌈y - 1/2⌉ := by
          by_contra hcon
          push_neg at hcon
          have h1 : (⌈y - 1/2⌉ : ℚ) + 1 ≤ (⌊x + 1/2⌋ : ℚ) := by
            exact_mod_cast Int.add_one_le_iff.mpr hcon
          have h2 : y - 1/2 ≤ (⌈y - 1/2⌉ : ℚ) := Int.le_ceil _
          have h3 : (⌊x + 1/2⌋ : ℚ) ≤ x + 1/2 := Int.floor_le _
          linarith
      _ ≤ pyRoundInt y := ceil_sub_le_pyRoundInt y

theorem pyRound_mono (n : ℕ) {x y : ℚ} (h : x ≤ y) :
    pyRound n x ≤ pyRound n y := by
  unfold pyRound
  have hpow : (0 : ℚ) < 10 ^ n := by positivity
  have h1 : (pyRoundInt (x * 10 ^ n) : ℚ) ≤ (pyRoundInt (y * 10 ^ n) : ℚ) := by
    exact_mod_cast pyRoundInt_mono (mul_le_mul_of_nonneg_right h hpow.le)
  exact (div_le_div_iff_of_pos_right hpow).mpr h1

theorem pyRound_intCast (n : ℕ) (k : ℤ) : pyRound n (k : ℚ) = k := by
  unfold pyRound
  have h1 : (k : ℚ) * 10 ^ n = ((k * 10 ^ n : ℤ) : ℚ) := by push_cast; ring
  rw [h1, pyRoundInt_intCast]
  have hpow : (10 : ℚ) ^ n ≠ 0 := by positivity
  push_cast
  field_simp

theorem pyRound_nonneg (n : ℕ) {x : ℚ} (hx : 0 ≤ x) : 0 ≤ pyRound n x := by
  have h0 : pyRound n (0 : ℚ) = 0 := by simpa using pyRound_intCast n 0
  calc (0 : ℚ) = pyRound n 0 := h0.symm
    _ ≤ pyRound n x := pyRound_mono n hx

theorem pyRound_le_hundred (n : ℕ) {x : ℚ} (hx : x ≤ 100) : pyRound n x ≤ 100 := by
  have h100 : pyRound n (100 : ℚ) = 100 := by simpa using pyRound_intCast n 100
  calc pyRound n x ≤ pyRound n 100 := pyRound_mono n hx
    _ = 100 := h100

/-- Evaluation helper: `pyRound` at a concrete non-tie argument. -/
theorem pyRound_concrete (n : ℕ) (x : ℚ) (k : ℤ)
    (hfr : Int.fract (x * 10 ^ n) ≠ 1/2) (hrd : round (x * 10 ^ n) = k) :
    pyRound n x = (k : ℚ) / 10 ^ n := by
  unfold pyRound pyRoundInt
  rw [if_neg hfr, hrd]

/-- The clamp-then-round score post-processing is monotone. -/
theorem clampRound_mono {x y : ℚ} (h : x ≤ y) :
    pyRound 1 (max 0 (min 100 x)) ≤ pyRound 1 (max 0 (min 100 y)) :=
  pyRound_mono 1 (max_le_max le_rfl (min_le_min le_rfl h))

/-- The enumerated loop of `compute_evidence_score`, with its default-0.5
similarity lookup, sums the per-pair contributions of the zipped lists when
the similarity list is long enough. -/
theorem enumFrom_contrib_sum :
    ∀ (stances : List StanceResult) (k : ℕ) (sims : List ℚ),
      k + stances.length ≤ sims.length →
      ((List.enumFrom k stances).map (fun p =>
        match p.2.stance with
        | Stance.SUPPORTS => 10 * (0.5 + sims.getD p.1 0.5)
        | Stance.REFUTES => -(15 * p.2.confidence)
        | Stance.NOT_ENOUGH_INFO => 0)).sum
      = ((stances.zip (sims.drop k)).map (fun p =>
        match p.1.stance with
        | Stance.SUPPORTS => 10 * (0.5 + p.2)
        | Stance.REFUTES => -(15 * p.1.confidence)
        | Stance.NOT_ENOUGH_INFO => 0)).sum := by
  intro stances
  induction stances with
  | nil => intro k sims _; simp
  | cons s rest ih =>
    intro k sims h
    have hk : k < sims.length := by
      simp only [List.length_cons] at h
      omega
    rw [List.enumFrom_cons, List.drop_eq_getElem_cons hk]
    simp only [List.map_cons, List.sum_cons, List.zip_cons_cons]
    rw [List.getD_eq_getElem sims 0.5 hk]
    rw [ih (k + 1) sims (by simp only [List.length_cons] at h; omega)]

/-- Bridge: for a similarity list of matching length, the score component
of `compute_evidence_score` is the clamped, rounded sum of the per-pair
contributions of the zipped lists (spelled with an if-chain). -/
theorem compute_evidence_score_fst_eq (stances : List StanceResult)
    (sims : List ℚ) (h : sims.length = stances.length) :
    (compute_evidence_score stances sims).1
      = pyRound 1 (max 0 (min 100 (50 +
          ((stances.zip sims).map (fun p =>
            if p.1.stance = Stance.SUPPORTS then 10 * (0.5 + p.2)
            else if p.1.stance = Stance.REFUTES then -(15 * p.1.confidence)
            else 0)).sum))) := by
  have hmatch : ∀ (p : StanceResult × ℚ),
      (match p.1.stance with
       | Stance.SUPPORTS => 10 * (0.5 + p.2)
       | Stance.REFUTES => -(15 * p.1.confidence)
       | Stance.NOT_ENOUGH_INFO => 0)
      = (if p.1.stance = Stance.SUPPORTS then 10 * (0.5 + p.2)
         else if p.1.stance = Stance.REFUTES then -(15 * p.1.confidence)
         else 0) := by
    rintro ⟨⟨st, c, kw, r⟩, m⟩
    cases st <;> simp
  by_cases hs : stances = []
  · subst hs
    have hsim : sims = [] := List.length_eq_zero.mp (by simpa using h)
    subst hsim
    simp only [compute_evidence_score, if_pos rfl, List.zip_nil_left,
      List.map_nil, List.sum_nil, add_zero]
    rw [min_eq_right (by norm_num), max_eq_right (by norm_num)]
    exact (by simpa using (pyRound_intCast 1 50).symm)
  · unfold compute_evidence_score
    rw [if_neg hs]
    simp only
    have hsum := enumFrom_contrib_sum stances 0 sims (by omega)
    rw [List.drop_zero] at hsum
    rw [show List.enum stances = List.enumFrom 0 stances from rfl, hsum,
      List.map_congr_left (fun p _ => hmatch p)]

/-! ## Claim theorems -/

/-- C9 counterexample: on the Jaccard fallback path the two
`compute_similarity` implementations disagree at claim `"a b c"` and
article text `"a"` — the ratio 1/3 rounds to 0.3333 (4 decimal places) in
evidence/similarity.py but to 0.333 (3 decimal places) in
evidence/news_fetcher.py. -/
theorem C9_counterexample :
    compute_similarity_fallback "a b c" "a"
      ≠ nf_compute_similarity_fallback "a b c" "a" := by
  have hinter : ((tokenSet "a b c" ∩ tokenSet "a").card : ℚ) = 1 := by
    norm_num [show (tokenSet "a b c" ∩ tokenSet "a").card = 1 from by decide]
  have hunion : ((tokenSet "a b c" ∪ tokenSet "a").card : ℚ) = 3 := by
    norm_num [show (tokenSet "a b c" ∪ tokenSet "a").card = 3 from by decide]
  have hL : compute_similarity_fallback "a b c" "a" = 3333 / 10000 := by
    unfold compute_similarity_fallback _jaccard_similarity
    rw [if_neg (by decide), if_neg (by decide), hinter, hunion,
      pyRound_concrete 4 (1 / 3) 3333 (by norm_num [Int.fract])
        (by norm_num [round_eq])]
    norm_num
  have hR : nf_compute_similarity_fallback "a b c" "a" = 333 / 1000 := by
    unfold nf_compute_similarity_fallback
    rw [if_neg (by decide), hinter, hunion,
      pyRound_concrete 3 (1 / 3) 333 (by norm_num [Int.fract])
        (by norm_num [round_eq])]
    norm_num
  rw [hL, hR]
  norm_num

/-- C9 (amended): the two Jaccard fallbacks compute the same unrounded
ratio over the same lowercase whitespace token sets — on every input either
both return 0 (empty argument or empty token set) or each returns the
shared ratio rounded to its own precision, 4 decimal places in
evidence/similarity.py and 3 in evidence/news_fetcher.py. -/
theorem C9_jaccard_fallback_relation (a b : String) :
    (compute_similarity_fallback a b = 0 ∧ nf_compute_similarity_fallback a b = 0) ∨
    (compute_similarity_fallback a b = pyRound 4 (jaccardRatio a b) ∧
      nf_compute_similarity_fallback a b = pyRound 3 (jaccardRatio a b)) := by
  by_cases hs : a = "" ∨ b = ""
  · left
    have hset : tokenSet a = ∅ ∨ tokenSet b = ∅ := by
      rcases hs with h | h
      · exact Or.inl (by rw [h]; decide)
      · exact Or.inr (by rw [h]; decide)
    constructor
    · unfold compute_similarity_fallback
      rw [if_pos hs]
    · unfold nf_compute_similarity_fallback
      simp only
      rw [if_pos hset]
  · unfold compute_similarity_fallback
    rw [if_neg hs]
    by_cases hset : tokenSet a = ∅ ∨ tokenSet b = ∅
    · left
      constructor
      · unfold _jaccard_similarity
        simp only
        rw [if_pos hset]
      · unfold nf_compute_similarity_fallback
        simp only
        rw [if_pos hset]
    · right
      constructor
      · unfold _jaccard_similarity jaccardRatio
        simp only
        rw [if_neg hset]
      · unfold nf_compute_similarity_fallback jaccardRatio
        simp only
        rw [if_neg hset]

/-- C1 counterexample: one retrieved Not-Enough-Info article with
similarity 0.3 makes the orchestrator's inline Layer-2 computation report
score 30.0 while `compute_evidence_score` on the same stance and similarity
returns 50.0, so the inline computation is not extensionally equal to the
aggregator of section 4.3. -/
theorem C1_counterexample :
    layer2ReportedScore (inlineLayer2 [⟨Stance.NOT_ENOUGH_INFO, 0.3⟩] 50).1
      ≠ (compute_evidence_score
          [⟨Stance.NOT_ENOUGH_INFO, 0.70, [],
            "No conclusive support or refutation signals found"⟩] [(0.3 : ℚ)]).1 := by
  have h30 : pyRound 1 (30 : ℚ) = 30 := by simpa using pyRound_intCast 1 30
  have h50 : pyRound 1 (50 : ℚ) = 50 := by simpa using pyRound_intCast 1 50
  have hL : (inlineLayer2 [⟨Stance.NOT_ENOUGH_INFO, (0.3 : ℚ)⟩] 50).1 = 30 := by
    simp only [inlineLayer2,
      if_neg (by simp : ¬([⟨Stance.NOT_ENOUGH_INFO, (0.3 : ℚ)⟩]
        = ([] : List EvidenceSourceRec))),
      List.filter_cons, List.filter_nil, List.map_cons, List.map_nil,
      List.sum_cons, List.sum_nil, List.length_cons, List.length_nil,
      reduceCtorEq]
    norm_num [min_def, max_def]
  have hR : (compute_evidence_score
      [⟨Stance.NOT_ENOUGH_INFO, 0.70, [],
        "No conclusive support or refutation signals found"⟩] [(0.3 : ℚ)]).1
      = 50 := by
    rw [compute_evidence_score_fst_eq _ _ rfl]
    simp only [List.zip_cons_cons, List.zip_nil_right, List.map_cons,
      List.map_nil, List.sum_cons, List.sum_nil, reduceCtorEq, if_false,
      add_zero]
    rw [min_eq_right (by norm_num), max_eq_right (by norm_num), h50]
  rw [hR]
  unfold layer2ReportedScore
  rw [hL, h30]
  norm_num

/-- C1 (amended): the inline Layer-2 computation nevertheless agrees with
`compute_evidence_score` exactly on when the Layer-2 verdict is Likely
Fake — given the same per-article stances, one side reports Likely Fake iff
the other does (both use refuting_count > supporting_count). -/
theorem C1_likely_fake_agreement
    (srcs : List EvidenceSourceRec) (stances : List StanceResult)
    (sims : List ℚ) (d : ℚ)
    (hmap : srcs.map (fun s => s.stance) = stances.map (fun s => s.stance)) :
    ((inlineLayer2 srcs d).2 = Verdict.LIKELY_FAKE ↔
      (compute_evidence_score stances sims).2 = "Likely Fake") := by
  have hfilt : ∀ st : Stance,
      (srcs.filter (fun s => s.stance = st)).length
        = (stances.filter (fun s => s.stance = st)).length := by
    intro st
    have key := congrArg (List.countP (fun x : Stance => decide (x = st))) hmap
    rw [List.countP_map, List.countP_map] at key
    rw [List.countP_eq_length_filter, List.countP_eq_length_filter] at key
    simpa [Function.comp] using key
  by_cases hnil : srcs = []
  · subst hnil
    have hst : stances = [] := by
      have := hmap.symm
      simp only [List.map_nil] at this
      exact List.map_eq_nil_iff.mp this
    subst hst
    simp [inlineLayer2, compute_evidence_score]
  · have hnil2 : stances ≠ [] := by
      intro hc
      subst hc
      simp only [List.map_nil] at hmap
      exact hnil (List.map_eq_nil_iff.mp hmap)
    unfold inlineLayer2 compute_evidence_score
    rw [if_neg hnil, if_neg hnil2]
    simp only
    rw [hfilt Stance.SUPPORTS, hfilt Stance.REFUTES]
    by_cases hgt : (stances.filter (fun s => s.stance = Stance.REFUTES)).length
        > (stances.filter (fun s => s.stance = Stance.SUPPORTS)).length
    · rw [if_pos hgt, if_pos hgt]
      simp
    · rw [if_neg hgt, if_neg hgt]
      constructor <;> intro hh <;> split_ifs at hh <;>
        exact absurd hh (by decide)

/-- Witness for C1 (amended): one refuting article on each side. -/
theorem C1_likely_fake_agreement_witness :
    ((inlineLayer2 [⟨Stance.REFUTES, (0.2 : ℚ)⟩] 50).2 = Verdict.LIKELY_FAKE ↔
      (compute_evidence_score [⟨Stance.REFUTES, 0.9, [], "r"⟩] [(0.2 : ℚ)]).2
        = "Likely Fake") :=
  C1_likely_fake_agreement _ _ _ _ rfl

/-- C3: for every keyword-scanner behavior, claim, title, description and
similarity, and every non-empty article URL whose lowercased form contains
one of the fixed fact-check domains, `detect_stance` returns stance Refutes
with confidence 0.90 regardless of content — rule 0 short-circuits the
similarity floor and both keyword scans. -/
theorem C3_factcheck_domain_short_circuit
    (scan : String → List String → List String)
    (claim title desc url : String) (sim : ℚ)
    (hurl : url ≠ "")
    (hdom : ∃ d ∈ _FACTCHECK_DOMAINS, pyContains (pyLower url) d = true) :
    (detect_stance scan claim title desc url sim).stance = Stance.REFUTES ∧
      (detect_stance scan claim title desc url sim).confidence = 0.90 := by
  have hsome : (_FACTCHECK_DOMAINS.find?
      (fun d => pyContains (pyLower url) d)).isSome := by
    rw [List.find?_isSome]
    simpa using hdom
  obtain ⟨fc, hfc⟩ := Option.isSome_iff_exists.mp hsome
  simp only [detect_stance]
  rw [if_pos hurl, hfc]
  exact ⟨rfl, rfl⟩

/-- Witness for C3: a Vera Files URL with similarity 0.05 (below the 0.15
floor) and a scanner reporting a support-keyword hit still yields Refutes
at confidence 0.90. -/
theorem C3_factcheck_domain_short_circuit_witness :
    ("https://verafiles.org/articles/fact-check-x" ≠ "") ∧
    ((detect_stance (fun _ _ => ["confirmed"]) "X" "X confirmed" "desc"
        "https://verafiles.org/articles/fact-check-x" 0.05).stance
          = Stance.REFUTES ∧
     (detect_stance (fun _ _ => ["confirmed"]) "X" "X confirmed" "desc"
        "https://verafiles.org/articles/fact-check-x" 0.05).confidence
          = 0.90) :=
  ⟨by decide,
   C3_factcheck_domain_short_circuit _ _ _ _ _ _ (by decide)
     ⟨"verafiles.org", by decide, by decide⟩⟩

/-- C2: `compute_evidence_score` satisfies the aggregator contract — the
empty stance list returns exactly `(50.0, "Unverified")`, and otherwise the
score equals 50 plus, per stance, `+10·(0.5+similarity)` for Supports,
`−15·confidence` for Refutes, and 0 for Not-Enough-Info, clamped to
[0, 100] and rounded to one decimal place. -/
theorem C2_aggregate_contract :
    compute_evidence_score [] [] = (50, "Unverified") ∧
    ∀ (stances : List StanceResult) (sims : List ℚ),
      sims.length = stances.length →
      (compute_evidence_score stances sims).1
        = pyRound 1 (max 0 (min 100 (50 +
            ((stances.zip sims).map (fun p =>
              if p.1.stance = Stance.SUPPORTS then 10 * (0.5 + p.2)
              else if p.1.stance = Stance.REFUTES then -(15 * p.1.confidence)
              else 0)).sum))) :=
  ⟨rfl, compute_evidence_score_fst_eq⟩

/-- Witness for C2 at one Supports stance with similarity 0.5. -/
theorem C2_aggregate_contract_witness :
    (compute_evidence_score [⟨Stance.SUPPORTS, 0.9, [], "s"⟩] [(0.5 : ℚ)]).1
      = pyRound 1 (max 0 (min 100 (50 +
          ((([⟨Stance.SUPPORTS, 0.9, [], "s"⟩] : List StanceResult).zip
              [(0.5 : ℚ)]).map (fun p =>
            if p.1.stance = Stance.SUPPORTS then 10 * (0.5 + p.2)
            else if p.1.stance = Stance.REFUTES then -(15 * p.1.confidence)
            else 0)).sum))) :=
  C2_aggregate_contract.2 _ _ rfl

/-- C4: the aggregate score is monotone in stance counts — with a matching
similarity list, appending one Refutes entry (confidence in [0,1],
similarity in [0,1]) never increases the returned score and appending one
Supports entry with its similarity never decreases it, through the clamp
and the rounding. -/
theorem C4_aggregate_monotone :
    ∀ (stances : List StanceResult) (sims : List ℚ),
      sims.length = stances.length →
      ∀ (conf m : ℚ) (kws : List String) (r : String),
        0 ≤ conf → conf ≤ 1 → 0 ≤ m → m ≤ 1 →
        (compute_evidence_score (stances ++ [⟨Stance.REFUTES, conf, kws, r⟩])
              (sims ++ [m])).1
            ≤ (compute_evidence_score stances sims).1 ∧
        (compute_evidence_score stances sims).1
          ≤ (compute_evidence_score (stances ++ [⟨Stance.SUPPORTS, conf, kws, r⟩])
              (sims ++ [m])).1 := by
  intro stances sims h conf m kws r hc0 hc1 hm0 hm1
  constructor
  · rw [compute_evidence_score_fst_eq _ _ h,
      compute_evidence_score_fst_eq _ _ (by simp [h])]
    apply clampRound_mono
    rw [List.zip_append h.symm, List.map_append, List.sum_append]
    have h15 : (15 : ℚ) * conf ≥ 0 := by positivity
    simp only [List.zip_cons_cons, List.zip_nil_right, List.map_cons,
      List.map_nil, List.sum_cons, List.sum_nil, if_true, if_false,
      reduceCtorEq, if_neg (by simp : ¬ (Stance.REFUTES = Stance.SUPPORTS)),
      if_pos rfl]
    linarith
  · rw [compute_evidence_score_fst_eq _ _ h,
      compute_evidence_score_fst_eq _ _ (by simp [h])]
    apply clampRound_mono
    rw [List.zip_append h.symm, List.map_append, List.sum_append]
    have h10 : (0 : ℚ) ≤ 10 * (0.5 + m) := by
      have h05 : (0 : ℚ) ≤ 0.5 + m := by
        linarith [show (0:ℚ) ≤ 0.5 by norm_num]
      positivity
    simp only [List.zip_cons_cons, List.zip_nil_right, List.map_cons,
      List.map_nil, List.sum_cons, List.sum_nil, if_true, if_pos rfl]
    linarith

/-- Witness for C4: one Supports stance, then appending a Refutes
(confidence 0.9) and a Supports (similarity 0.5). -/
theorem C4_aggregate_monotone_witness :
    (compute_evidence_score
        ([⟨Stance.SUPPORTS, 0.8, [], "s"⟩] ++ [⟨Stance.REFUTES, 0.9, [], "w"⟩])
        ([(0.5 : ℚ)] ++ [0.5])).1
      ≤ (compute_evidence_score [⟨Stance.SUPPORTS, 0.8, [], "s"⟩] [(0.5 : ℚ)]).1 ∧
    (compute_evidence_score [⟨Stance.SUPPORTS, 0.8, [], "s"⟩] [(0.5 : ℚ)]).1
      ≤ (compute_evidence_score
          ([⟨Stance.SUPPORTS, 0.8, [], "s"⟩] ++ [⟨Stance.SUPPORTS, 0.9, [], "w"⟩])
          ([(0.5 : ℚ)] ++ [0.5])).1 :=
  ⟨(C4_aggregate_monotone _ _ rfl 0.9 0.5 [] "w" (by norm_num) (by norm_num)
      (by norm_num) (by norm_num)).1,
   (C4_aggregate_monotone _ _ rfl 0.9 0.5 [] "w" (by norm_num) (by norm_num)
      (by norm_num) (by norm_num)).2⟩

/-- C5: the fused `final_score` is always in [0, 100] — for every weight
configuration, every ML credibility, every evidence score and every
optional domain tier (hence for any resulting domain adjustment), the value
`round(min(100, max(0, base_score + domain_adjustment)), 1)` computed by
the fusion step lies in [0, 100]: it is clamped, not wrapped, and the
1-decimal rounding cannot leave the interval. -/
theorem C5_final_score_bounded
    (mlw evw ml_credibility evidence_score : ℚ) (tier : Option DomainTier) :
    0 ≤ finalScore mlw evw ml_credibility evidence_score tier ∧
      finalScore mlw evw ml_credibility evidence_score tier ≤ 100 := by
  unfold finalScore
  constructor
  · exact pyRound_nonneg 1 (le_min (by norm_num) (le_max_left 0 _))
  · exact pyRound_le_hundred 1 (min_le_left _ _)

/-- C6: the disagreement multiplier lies in [1.0, 1.5] for every domain
tier and every ML credibility (in particular every value in [0, 100]); and
in the concrete scenario of tier Credible (implied score 75) with
`ml_credibility = 20`, the disagreement is 1.1, the multiplier saturates at
1.5, and the resulting domain adjustment is 20 × 1.5 = 30. -/
theorem C6_multiplier_bounded :
    (∀ (tier : DomainTier) (ml_credibility : ℚ),
        1 ≤ multiplier ml_credibility tier ∧ multiplier ml_credibility tier ≤ 1.5) ∧
      disagreement 20 (_TIER_IMPLIED_SCORE DomainTier.CREDIBLE) = 1.1 ∧
      multiplier 20 DomainTier.CREDIBLE = 1.5 ∧
      domainAdjustment (some DomainTier.CREDIBLE) 20 = 30 := by
  have habs : |(20 : ℚ) - 75| = 55 := by
    rw [abs_of_nonpos (by norm_num)]; norm_num
  refine ⟨fun tier ml => ?_, ?_, ?_, ?_⟩
  · unfold multiplier disagreement
    have h : (0 : ℚ) ≤ |ml - _TIER_IMPLIED_SCORE tier| / 50 := by positivity
    have h2 : (0 : ℚ) ≤ |ml - _TIER_IMPLIED_SCORE tier| / 50 * 0.5 :=
      mul_nonneg h (by norm_num)
    exact ⟨le_min (by norm_num) (by linarith), min_le_left _ _⟩
  · simp only [disagreement, _TIER_IMPLIED_SCORE]
    rw [habs]; norm_num
  · simp only [multiplier, disagreement, _TIER_IMPLIED_SCORE]
    rw [habs, min_eq_left (by norm_num)]
  · simp only [domainAdjustment, _BASE_ADJ, multiplier, disagreement,
      _TIER_IMPLIED_SCORE]
    rw [habs, min_eq_left (by norm_num)]
    norm_num

/-- C7: the final verdict is a pure threshold mapping of the final score
with the two configured thresholds (defaults 70 and 40): at or above the
credible threshold the verdict is Credible, at or above the fake threshold
but below the credible threshold it is Unverified, below the fake threshold
it is Likely Fake, and a score exactly equal to a threshold maps to the
higher verdict. -/
theorem C7_map_verdict_thresholds :
    (Settings.credible_threshold = 70 ∧ Settings.fake_threshold = 40) ∧
    (∀ s : ℚ, Settings.credible_threshold ≤ s →
        _map_verdict Settings.credible_threshold Settings.fake_threshold s
          = Verdict.CREDIBLE) ∧
    (∀ s : ℚ, s < Settings.credible_threshold → Settings.fake_threshold ≤ s →
        _map_verdict Settings.credible_threshold Settings.fake_threshold s
          = Verdict.UNVERIFIED) ∧
    (∀ s : ℚ, s < Settings.fake_threshold →
        _map_verdict Settings.credible_threshold Settings.fake_threshold s
          = Verdict.LIKELY_FAKE) ∧
    _map_verdict Settings.credible_threshold Settings.fake_threshold 70
      = Verdict.CREDIBLE ∧
    _map_verdict Settings.credible_threshold Settings.fake_threshold 40
      = Verdict.UNVERIFIED := by
  refine ⟨⟨rfl, rfl⟩, ?_, ?_, ?_, by decide, by decide⟩
  · intro s hs
    unfold _map_verdict
    rw [if_pos hs]
  · intro s h1 h2
    unfold _map_verdict
    rw [if_neg (not_le.mpr h1), if_pos h2]
  · intro s h
    unfold _map_verdict
    have h2 : ¬ (Settings.credible_threshold ≤ s) := by
      unfold Settings.credible_threshold Settings.fake_threshold at *
      linarith
    rw [if_neg h2, if_neg (not_le.mpr h)]

/-- Witness for C7 at the concrete scores 85, 55 and 12. -/
theorem C7_map_verdict_thresholds_witness :
    _map_verdict Settings.credible_threshold Settings.fake_threshold 85
      = Verdict.CREDIBLE ∧
    _map_verdict Settings.credible_threshold Settings.fake_threshold 55
      = Verdict.UNVERIFIED ∧
    _map_verdict Settings.credible_threshold Settings.fake_threshold 12
      = Verdict.LIKELY_FAKE :=
  ⟨C7_map_verdict_thresholds.2.1 85 (by norm_num [Settings.credible_threshold]),
   C7_map_verdict_thresholds.2.2.1 55
     (by norm_num [Settings.credible_threshold])
     (by norm_num [Settings.fake_threshold]),
   C7_map_verdict_thresholds.2.2.2.1 12 (by norm_num [Settings.fake_threshold])⟩

/-- C8: whenever no evidence can be gathered — the news API key is not
configured, the retrieval raises (and is caught), or zero articles come
back — the evidence score the orchestrator continues with equals the
domain-tier-dependent default: 65 for Credible, 45 for Satire/Opinion, 50
for Suspicious, 25 for Known Fake, and 50 when no source domain is known;
`layer2Step` is total, so the request completes instead of raising. -/
theorem C8_evidence_default_on_failure :
    (∀ (tier : Option DomainTier) (api_key_set : Bool)
        (fetched : Option (List EvidenceSourceRec)),
        api_key_set = false ∨ fetched = none ∨ fetched = some [] →
        (layer2Step tier api_key_set fetched).1 = evidenceDefault tier) ∧
      evidenceDefault (some DomainTier.CREDIBLE) = 65 ∧
      evidenceDefault (some DomainTier.SATIRE_OPINION) = 45 ∧
      evidenceDefault (some DomainTier.SUSPICIOUS) = 50 ∧
      evidenceDefault (some DomainTier.KNOWN_FAKE) = 25 ∧
      evidenceDefault none = 50 := by
  refine ⟨?_, rfl, rfl, rfl, rfl, rfl⟩
  rintro tier api fetched (rfl | rfl | rfl)
  · rfl
  · cases api <;> rfl
  · cases api <;> rfl

/-- Witness for C8: tier Credible with a configured key and a failed
fetch falls back to the tier default. -/
theorem C8_evidence_default_on_failure_witness :
    (layer2Step (some DomainTier.CREDIBLE) true none).1
      = evidenceDefault (some DomainTier.CREDIBLE) :=
  C8_evidence_default_on_failure.1 (some DomainTier.CREDIBLE) true none
    (Or.inr (Or.inl rfl))

/-- C10: the top-level `confidence` field of every assembled verification
result equals `round(max(layer1.confidence, evidence_score), 1)` — the
source's `evidence_score / 100 * 100` is exactly the evidence score. -/
theorem C10_top_confidence (l1_confidence evidence_score : ℚ) :
    topConfidence l1_confidence evidence_score
      = pyRound 1 (max l1_confidence evidence_score) := by
  unfold topConfidence
  rw [div_mul_cancel₀]
  norm_num

end PhilVerify
